import Mathlib

/-!
Shallow embedding of the SSH tunnel core of the `zync` repository
(`src-tauri/src/tunnel.rs` and `src-tauri/src/ssh.rs`).

Stateful Rust code is embedded as pure functions that take the relevant
state explicitly, return the updated state, and additionally emit an
ordered list of events recording the side effects (listener binds, task
spawns, protocol requests) in the order the Rust code performs them.
Network and subprocess outcomes (bind success, forward-request success,
process discovery) are supplied as oracle arguments.
-/

namespace Zync

/-! ### Association-list model of the two `HashMap` registries -/

/-- Lookup in a registry, mirroring `HashMap::get`. -/
def alistGet {κ α : Type} [BEq κ] (m : List (κ × α)) (k : κ) : Option α :=
  (m.find? (fun p => p.1 == k)).map (fun p => p.2)

/-- Membership test, mirroring `HashMap::contains_key`. -/
def alistContains {κ α : Type} [BEq κ] (m : List (κ × α)) (k : κ) : Bool :=
  (alistGet m k).isSome

/-- Insertion, mirroring `HashMap::insert` on a key known to be absent
(the code always checks `contains_key` first). -/
def alistInsert {κ α : Type} [BEq κ] (m : List (κ × α)) (k : κ) (v : α) : List (κ × α) :=
  m ++ [(k, v)]

/-- Removal, mirroring `HashMap::remove`. -/
def alistRemove {κ α : Type} [BEq κ] (m : List (κ × α)) (k : κ) : List (κ × α) :=
  m.filter (fun p => !(p.1 == k))

/-! ### Data model (`tunnel.rs`) -/

/-- Value stored in `remote_forwards`: `(local_host, local_port, bind_address)`. -/
abbrev RemoteEntry := String × Nat × String

/-- The `TunnelManager` registries.  `remote_forwards` maps a remote port
(`u16`, embedded as `Nat`) to its target; `local_listeners` maps a tunnel id
to its `(AbortHandle, Sender)` pair, whose identity is irrelevant to the
claims and is embedded as `Unit`. -/
structure TunnelState where
  remote_forwards : List (Nat × RemoteEntry)
  local_listeners : List (String × Unit)
deriving DecidableEq, Repr

/-- Events recording the side effects of the tunnel manager, in program order. -/
inductive TEvent where
  | bindAttempt (addr : String) (port : Nat)
  | spawnAcceptLoop (id : String) (remote_host : String) (remote_port : Nat)
  | insertLocal (id : String)
  | insertRemote (port : Nat)
  | tcpipForward (bind : String) (port : Nat)
  | cancelForward (bind : String) (port : Nat)
  | removeLocal (id : String)
  | removeRemote (port : Nat)
  | broadcastCancel (id : String)
  | abortLoop (id : String)
deriving DecidableEq, Repr

/-- Errors surfaced by the tunnel manager (`anyhow` errors, tagged by shape). -/
inductive TunnelError where
  | portInUse (message : String)
  | bindFailed (message : String)
  | remoteForwardError (message : String)
deriving DecidableEq, Repr

/-- Outcome of the `TcpListener::bind` call, supplied as an oracle. -/
inductive BindOutcome where
  | ok
  | addrInUse
  | otherErr (msg : String)
deriving DecidableEq, Repr

/-! ### Port diagnostic (`tunnel.rs`, `find_next_available_port`) -/

/-- The probe loop of `find_next_available_port`: `offset` is the current
loop counter, `remaining` the attempts left.  `candidate` uses `min` with
65535 to model `u16::saturating_add`.  `avail` is the bind-probe oracle. -/
def findNextGo (avail : Nat → Bool) (start_port offset remaining : Nat) : Option Nat :=
  match remaining with
  | 0 => none
  | r + 1 =>
    let candidate := min (start_port + offset) 65535
    if candidate = 0 ∨ candidate = start_port then
      findNextGo avail start_port (offset + 1) r
    else if avail candidate then
      some candidate
    else
      findNextGo avail start_port (offset + 1) r

/-- `find_next_available_port(start_port, max_attempts)`: probe
`127.0.0.1:(start_port+offset)` for `offset ∈ [1, max_attempts]`, returning
the first candidate that binds. -/
def find_next_available_port (avail : Nat → Bool) (start_port max_attempts : Nat) : Option Nat :=
  findNextGo avail start_port 1 max_attempts

/-- Spec-side reading of the probe loop, written from the specification's
words: try ports `from_, from_+1, ...` (`n` of them) in order and return the
first available one.  Used only to compare against `find_next_available_port`. -/
def firstAvailFrom (avail : Nat → Bool) (from_ n : Nat) : Option Nat :=
  match n with
  | 0 => none
  | k + 1 => if avail from_ then some from_ else firstAvailFrom avail (from_ + 1) k

/-! ### `start_local_forwarding` -/

/-- The error message built on `AddrInUse`, mirroring the two `format!`
branches of `start_local_forwarding`. -/
def port_in_use_message (local_port : Nat) (process_info : Option String)
    (suggested : Option Nat) : String :=
  let pinfo := match process_info with
    | some p => " " ++ p
    | none => ""
  match suggested with
  | some port =>
      "Port " ++ toString local_port ++ " is already in use" ++ pinfo ++
        ". Port " ++ toString port ++ " is available."
  | none =>
      "Port " ++ toString local_port ++ " is already in use" ++ pinfo ++
        ". Please choose a different port."

/-- The local tunnel id `format!("local:{}:{}", local_port, remote_port)`. -/
def localTunnelId (local_port remote_port : Nat) : String :=
  "local:" ++ toString local_port ++ ":" ++ toString remote_port

/-- `TunnelManager::start_local_forwarding`.  Oracles: `bind_outcome` is the
result of binding `(bind_address, local_port)`; `process_info` is what
`find_process_using_port` reports; `avail` drives the probe binds of
`find_next_available_port`. -/
def start_local_forwarding (st : TunnelState) (bind_outcome : BindOutcome)
    (process_info : Option String) (avail : Nat → Bool)
    (bind_address : String) (local_port : Nat) (remote_host : String)
    (remote_port : Nat) :
    Except TunnelError String × TunnelState × List TEvent :=
  let tunnel_id := localTunnelId local_port remote_port
  if alistContains st.local_listeners tunnel_id then
    (Except.ok tunnel_id, st, [])
  else
    match bind_outcome with
    | BindOutcome.addrInUse =>
        let suggested := find_next_available_port avail local_port 10
        (Except.error (TunnelError.portInUse
            (port_in_use_message local_port process_info suggested)),
         st, [TEvent.bindAttempt bind_address local_port])
    | BindOutcome.otherErr m =>
        (Except.error (TunnelError.bindFailed m), st,
         [TEvent.bindAttempt bind_address local_port])
    | BindOutcome.ok =>
        let st' : TunnelState :=
          { st with local_listeners := alistInsert st.local_listeners tunnel_id () }
        (Except.ok tunnel_id, st',
         [TEvent.bindAttempt bind_address local_port,
          TEvent.spawnAcceptLoop tunnel_id remote_host remote_port,
          TEvent.insertLocal tunnel_id])

/-! ### `start_remote_forwarding` -/

/-- The remote tunnel id `format!("remote:{}:{}", remote_port, local_port)`. -/
def remoteTunnelId (remote_port local_port : Nat) : String :=
  "remote:" ++ toString remote_port ++ ":" ++ toString local_port

/-- `TunnelManager::start_remote_forwarding`.  The registry entry is inserted
first; then `tcpip_forward` is issued (oracle `forward_ok` / `forward_err`).
On failure the code propagates the error with `?` and does NOT remove the
entry it just inserted. -/
def start_remote_forwarding (st : TunnelState) (forward_ok : Bool)
    (forward_err : String) (bind_address : String) (remote_port : Nat)
    (local_host : String) (local_port : Nat) :
    Except TunnelError String × TunnelState × List TEvent :=
  let tunnel_id := remoteTunnelId remote_port local_port
  if alistContains st.remote_forwards remote_port then
    (Except.ok tunnel_id, st, [])
  else
    let st' : TunnelState :=
      { st with remote_forwards :=
          alistInsert st.remote_forwards remote_port (local_host, local_port, bind_address) }
    if forward_ok then
      (Except.ok tunnel_id, st',
       [TEvent.insertRemote remote_port, TEvent.tcpipForward bind_address remote_port])
    else
      (Except.error (TunnelError.remoteForwardError
          ("Remote forwarding error: " ++ forward_err)),
       st',
       [TEvent.insertRemote remote_port, TEvent.tcpipForward bind_address remote_port])

/-! ### `stop_tunnel` -/

/-- `charsPrefixOf pre s`: Rust's `str::starts_with`, on character lists. -/
def charsPrefixOf : List Char → List Char → Bool
  | [], _ => true
  | _ :: _, [] => false
  | a :: as, b :: bs => a = b && charsPrefixOf as bs

/-- Rust's `str::starts_with`. -/
def strStarts (s pre : String) : Bool :=
  charsPrefixOf pre.data s.data

/-- Splitting a character list at every occurrence of `sep`, keeping empty
pieces — the semantics of Rust's `str::split(sep)`. -/
def splitCharAux (sep : Char) : List Char → List Char → List (List Char)
  | [], acc => [acc.reverse]
  | c :: cs, acc =>
      if c = sep then acc.reverse :: splitCharAux sep cs []
      else splitCharAux sep cs (c :: acc)

/-- Rust's `str::split(sep).collect::<Vec<_>>()`. -/
def splitChar (sep : Char) (s : String) : List String :=
  (splitCharAux sep s.data []).map (fun l => String.mk l)

/-- Rust's `str::parse::<u16>()`: an optional leading `+`, then one or more
ASCII digits, value at most 65535. -/
def parseU16 (s : String) : Option Nat :=
  let digits := match s.data with
    | '+' :: rest => rest
    | cs => cs
  if digits.isEmpty then none
  else if digits.all Char.isDigit then
    let v := digits.foldl (fun acc c => acc * 10 + (c.toNat - 48)) 0
    if v ≤ 65535 then some v else none
  else none

/-- `TunnelManager::stop_tunnel`.  `has_session` models whether the
`Option<Arc<Mutex<Handle>>>` argument is `Some`;  every `cancel_tcpip_forward`
result is discarded by the code (`let _ = ...`), so the oracle for it is
unneeded. -/
def stop_tunnel (st : TunnelState) (has_session : Bool) (tunnel_id : String)
    (bind_address_override : Option String) :
    Except TunnelError Unit × TunnelState × List TEvent :=
  if strStarts tunnel_id "local:" then
    match alistGet st.local_listeners tunnel_id with
    | some _ =>
        (Except.ok (),
         { st with local_listeners := alistRemove st.local_listeners tunnel_id },
         [TEvent.removeLocal tunnel_id, TEvent.broadcastCancel tunnel_id,
          TEvent.abortLoop tunnel_id])
    | none => (Except.ok (), st, [])
  else if strStarts tunnel_id "remote:" then
    match splitChar ':' tunnel_id with
    | [_, p1, _] =>
        match parseU16 p1 with
        | some remote_port =>
            match alistGet st.remote_forwards remote_port with
            | some (_, _, saved_bind_address) =>
                let st' : TunnelState :=
                  { st with remote_forwards := alistRemove st.remote_forwards remote_port }
                if has_session then
                  let bind_addr := bind_address_override.getD saved_bind_address
                  (Except.ok (), st',
                   [TEvent.removeRemote remote_port,
                    TEvent.cancelForward bind_addr remote_port])
                else
                  (Except.ok (), st', [TEvent.removeRemote remote_port])
            | none =>
                if has_session then
                  let bind_addr := bind_address_override.getD "0.0.0.0"
                  (Except.ok (), st, [TEvent.cancelForward bind_addr remote_port])
                else
                  (Except.ok (), st, [])
        | none => (Except.ok (), st, [])
    | _ => (Except.ok (), st, [])
  else
    (Except.ok (), st, [])

/-! ### Per-connection task of a local tunnel (`tunnel.rs`, accept loop body) -/

/-- Events of one spawned per-connection task, in program order. -/
inductive LEvent where
  | lockAcquire
  | channelOpenDirect (remote_host : String) (remote_port : Nat)
      (orig_host : String) (orig_port : Nat)
  | logChannelError
  | lockRelease
  | copyBidirectional
deriving DecidableEq, Repr

/-- The task spawned for each accepted connection: the session lock guards
only the `channel_open_direct_tcpip` call (and, on failure, the error log in
the same scope); the guard is dropped when the inner block ends, before
`copy_bidirectional` runs.  `channel_ok` is the outcome oracle of the
channel open. -/
def per_connection_task (channel_ok : Bool) (remote_host : String)
    (remote_port : Nat) : List LEvent :=
  ([LEvent.lockAcquire,
    LEvent.channelOpenDirect remote_host remote_port "127.0.0.1" 0] ++
   (if channel_ok then [] else [LEvent.logChannelError]) ++
   [LEvent.lockRelease]) ++
  (if channel_ok then [LEvent.copyBidirectional] else [])

/-! ### Sessions and the handler (`ssh.rs`) -/

/-- A live session handle.  `kept_alive_session` embeds the handler's
`Option<Arc<Box<Handle<Client>>>>` anchor: `some parent` holds shared
ownership of the parent session for a child built over a jump host. -/
inductive SessionHandle where
  | mk (host : String) (port : Nat) (username : String)
      (kept_alive_session : Option SessionHandle)

/-- The handler's anchor field. -/
def SessionHandle.kept_alive_session : SessionHandle → Option SessionHandle
  | SessionHandle.mk _ _ _ k => k

/-- The `Client` handler state: the shared tunnel-manager registry it reads,
and the parent-session anchor. -/
structure Client where
  remote_forwards : List (Nat × RemoteEntry)
  kept_alive_session : Option SessionHandle

/-- Events of the forwarded-tcpip handler, in program order. -/
inductive HEvent where
  | dialLocal (host : String) (port : Nat)
  | copyBidirectional
  | logDialError (host : String) (port : Nat)
  | logNoTunnel (port : Nat)
deriving DecidableEq, Repr

/-- `Client::server_channel_open_forwarded_tcpip`.  `connected_port` is the
wire-level `u32`; the code truncates it with `as u16`, embedded as
`% 65536`.  If the registry has a target, a task is spawned that dials it
(`dial_ok` oracle) and copies bidirectionally; otherwise the handler logs
and returns `Ok(())`.  The handler state is returned unchanged (the code
never writes to `self`). -/
def server_channel_open_forwarded_tcpip (self : Client) (connected_port : Nat)
    (dial_ok : Bool) : Client × Except Unit Unit × List HEvent :=
  match alistGet self.remote_forwards (connected_port % 65536) with
  | some (target_host, target_port, _) =>
      (self, Except.ok (),
       HEvent.dialLocal target_host target_port ::
         (if dial_ok then [HEvent.copyBidirectional]
          else [HEvent.logDialError target_host target_port]))
  | none =>
      (self, Except.ok (), [HEvent.logNoTunnel connected_port])

/-! ### `SshManager::connect` -/

/-- Authentication method of a connection (`types.rs`). -/
inductive AuthMethod where
  | password (password : String)
  | privateKey (key_path : String) (passphrase : Option String)
deriving DecidableEq, Repr

/-- Connection configuration with its optional recursive jump host. -/
inductive ConnectionConfig where
  | mk (host : String) (port : Nat) (username : String)
      (auth_method : AuthMethod) (jump_host : Option ConnectionConfig)

def ConnectionConfig.host : ConnectionConfig → String
  | ConnectionConfig.mk h _ _ _ _ => h

def ConnectionConfig.port : ConnectionConfig → Nat
  | ConnectionConfig.mk _ p _ _ _ => p

def ConnectionConfig.username : ConnectionConfig → String
  | ConnectionConfig.mk _ _ u _ _ => u

def ConnectionConfig.jump_host : ConnectionConfig → Option ConnectionConfig
  | ConnectionConfig.mk _ _ _ _ j => j

/-- Events of session construction, in program order. -/
inductive SEvent where
  | tcpConnect (host : String) (port : Nat)
  | channelOpenDirectTcpip (host : String) (port : Nat)
      (orig_host : String) (orig_port : Nat)
  | handshake (host : String)
  | authenticate (username : String)
deriving DecidableEq, Repr

/-- Errors of session construction. -/
inductive ConnectError where
  | transportError
  | channelError
  | handshakeError
  | authError
  | jumpHostError (inner : ConnectError)
deriving DecidableEq, Repr

/-- Outcome oracles for the connection steps. -/
structure ConnectOracle where
  tcp_ok : String → Nat → Bool
  channel_ok : String → Nat → Bool
  handshake_ok : String → Bool
  auth_ok : String → Bool

/-- `SshManager::connect`.  With a jump host: recursively connect the parent
(its own authentication included); open a direct-tcpip channel to
`(host, port)` with dummy originator `"0.0.0.0":0` on the parent; handshake
over the channel's stream with a handler anchoring the parent; then
authenticate the target.  Without one: TCP connect, handshake with an
anchorless handler, authenticate. -/
def connect (oc : ConnectOracle) : ConnectionConfig →
    Except ConnectError SessionHandle × List SEvent
  | ConnectionConfig.mk host port username _ (some jcfg) =>
      match connect oc jcfg with
      | (Except.error e, ptr) => (Except.error (ConnectError.jumpHostError e), ptr)
      | (Except.ok parent, ptr) =>
          let tr1 := ptr ++ [SEvent.channelOpenDirectTcpip host port "0.0.0.0" 0]
          if oc.channel_ok host port then
            let tr2 := tr1 ++ [SEvent.handshake host]
            if oc.handshake_ok host then
              let sess := SessionHandle.mk host port username (some parent)
              let tr3 := tr2 ++ [SEvent.authenticate username]
              if oc.auth_ok username then (Except.ok sess, tr3)
              else (Except.error ConnectError.authError, tr3)
            else (Except.error ConnectError.handshakeError, tr2)
          else (Except.error ConnectError.channelError, tr1)
  | ConnectionConfig.mk host port username _ none =>
      let tr1 := [SEvent.tcpConnect host port]
      if oc.tcp_ok host port then
        let tr2 := tr1 ++ [SEvent.handshake host]
        if oc.handshake_ok host then
          let sess := SessionHandle.mk host port username none
          let tr3 := tr2 ++ [SEvent.authenticate username]
          if oc.auth_ok username then (Except.ok sess, tr3)
          else (Except.error ConnectError.authError, tr3)
        else (Except.error ConnectError.handshakeError, tr2)
      else (Except.error ConnectError.transportError, tr1)

/-! ### Helper notions for the statements -/

/-- `sub` occurs as a contiguous substring of `s`. -/
def containsStr (s sub : String) : Prop :=
  ∃ pre post, s = pre ++ (sub ++ post)

/-- Parse of the second colon-separated field of a remote tunnel id, the
way `stop_tunnel` does it: exactly three fields, second one a `u16`. -/
def remoteIdPort (tunnel_id : String) : Option Nat :=
  match splitChar ':' tunnel_id with
  | [_, p1, _] => parseU16 p1
  | _ => none

/-- The registry `stop_tunnel tunnel_id` would mutate has a matching entry. -/
def stopTouches (st : TunnelState) (tunnel_id : String) : Bool :=
  if strStarts tunnel_id "local:" then
    alistContains st.local_listeners tunnel_id
  else if strStarts tunnel_id "remote:" then
    match remoteIdPort tunnel_id with
    | some rp => alistContains st.remote_forwards rp
    | none => false
  else false

/-! ### Helper lemmas -/

lemma alistGet_eq_none_of_contains_false {κ α : Type} [BEq κ]
    (m : List (κ × α)) (k : κ) (h : alistContains m k = false) :
    alistGet m k = none := by
  unfold alistContains at h
  cases hg : alistGet m k with
  | none => rfl
  | some v => rw [hg] at h; simp at h

lemma strStarts_remote_not_local (tid : String)
    (h : strStarts tid "remote:" = true) : strStarts tid "local:" = false := by
  unfold strStarts at h ⊢
  have hr : "remote:".data = ['r', 'e', 'm', 'o', 't', 'e', ':'] := rfl
  have hl : "local:".data = ['l', 'o', 'c', 'a', 'l', ':'] := rfl
  rw [hr] at h
  rw [hl]
  generalize hg : tid.data = l at h ⊢
  cases l with
  | nil => exact absurd h (by simp [charsPrefixOf])
  | cons c cs =>
      simp [charsPrefixOf] at h
      rw [← h.1]
      simp [charsPrefixOf]

/-! ### C1 — rollback of the remote registry entry on forward failure -/

/-- C1: at the concrete failing input (empty registries, remote-port 9000,
target `127.0.0.1:3000`, forward request refused by the server),
`start_remote_forwarding` fails with the remote-forward error but the
registry entry inserted for port 9000 is NOT removed: the remote registry
ends up holding the entry instead of being left as it was before the call.
The code has no rollback; the claim (and the spec's stated intent) says the
speculative insertion is rolled back. -/
theorem start_remote_forwarding_keeps_entry_on_failure :
    (start_remote_forwarding ⟨[], []⟩ false "server refused" "0.0.0.0" 9000
        "127.0.0.1" 3000).1 =
      Except.error (TunnelError.remoteForwardError
        "Remote forwarding error: server refused") ∧
    (start_remote_forwarding ⟨[], []⟩ false "server refused" "0.0.0.0" 9000
        "127.0.0.1" 3000).2.1.remote_forwards =
      [(9000, ("127.0.0.1", 3000, "0.0.0.0"))] :=
  ⟨rfl, rfl⟩

/-! ### C2 — handler routing of inbound forwarded-tcpip channels -/

/-- C2 (counterexample): for the inbound port 74536 = 65536 + 9000 the
remote registry does not contain 74536, yet the handler — which truncates
the wire-level `u32` port with `as u16` — dials the target registered under
9000 and copies, instead of logging and returning without wiring. -/
theorem server_channel_forwarded_truncation_cex :
    alistContains ([(9000, ("127.0.0.1", 3000, "0.0.0.0"))] :
        List (Nat × RemoteEntry)) 74536 = false ∧
    (server_channel_open_forwarded_tcpip
        ⟨[(9000, ("127.0.0.1", 3000, "0.0.0.0"))], none⟩ 74536 true).2.2 =
      [HEvent.dialLocal "127.0.0.1" 3000, HEvent.copyBidirectional] :=
  ⟨rfl, rfl⟩

/-- C2 (amended): for every inbound forwarded-tcpip open whose port is a
genuine 16-bit port (`p < 65536`), the handler returns success and: if the
registry records a target for `p` it dials that `(local_host, local_port)`
and, when the dial succeeds, copies bidirectionally; if the registry does
not contain `p` it only logs.  (In general the code keys the lookup on
`p % 65536`.) -/
theorem server_channel_forwarded_routes_registry
    (reg : List (Nat × RemoteEntry)) (anchor : Option SessionHandle)
    (p : Nat) (d : Bool) (hp : p < 65536) :
    (server_channel_open_forwarded_tcpip ⟨reg, anchor⟩ p d).2.1 =
      Except.ok () ∧
    (∀ th tp b, alistGet reg p = some (th, tp, b) →
      (server_channel_open_forwarded_tcpip ⟨reg, anchor⟩ p d).2.2 =
        HEvent.dialLocal th tp ::
          (if d then [HEvent.copyBidirectional]
           else [HEvent.logDialError th tp])) ∧
    (alistGet reg p = none →
      (server_channel_open_forwarded_tcpip ⟨reg, anchor⟩ p d).2.2 =
        [HEvent.logNoTunnel p]) := by
  have hmod : p % 65536 = p := Nat.mod_eq_of_lt hp
  unfold server_channel_open_forwarded_tcpip
  simp only [hmod]
  refine ⟨?_, ?_, ?_⟩
  · cases hg : alistGet reg p with
    | none => simp
    | some v => obtain ⟨th, tp, b⟩ := v; simp
  · intro th tp b hg
    rw [hg]
  · intro hg
    rw [hg]

/-- C2 (witness): the amended theorem at the concrete registry
`{9000 ↦ (127.0.0.1, 3000, 0.0.0.0)}` and inbound port 9000. -/
theorem server_channel_forwarded_routes_registry_witness :
    (server_channel_open_forwarded_tcpip
        ⟨[(9000, ("127.0.0.1", 3000, "0.0.0.0"))], none⟩ 9000 true).2.2 =
      [HEvent.dialLocal "127.0.0.1" 3000, HEvent.copyBidirectional] := by
  have h := (server_channel_forwarded_routes_registry
      [(9000, ("127.0.0.1", 3000, "0.0.0.0"))] none 9000 true
      (by decide)).2.1 "127.0.0.1" 3000 "0.0.0.0" rfl
  simpa using h

/-! ### C3 — idempotent start -/

/-- C3 (counterexample): with an existing remote tunnel registered as
remote-port 9000 → local-port 3000 (its id is `"remote:9000:3000"`), a
start for remote-port 9000 with local-port 4000 takes the idempotent path
but returns `"remote:9000:4000"` — an id computed from the call's
arguments, different from the existing tunnel's id. -/
theorem start_remote_idempotent_id_cex :
    alistGet ([(9000, ("127.0.0.1", 3000, "0.0.0.0"))] :
        List (Nat × RemoteEntry)) 9000 = some ("127.0.0.1", 3000, "0.0.0.0") ∧
    (start_remote_forwarding ⟨[(9000, ("127.0.0.1", 3000, "0.0.0.0"))], []⟩
        true "" "0.0.0.0" 9000 "127.0.0.1" 4000).1 =
      Except.ok "remote:9000:4000" ∧
    "remote:9000:4000" ≠ remoteTunnelId 9000 3000 :=
  ⟨rfl, rfl, by decide⟩

/-- C3 (amended): starting a local tunnel whose id is already in the local
registry returns that existing id with no bind, no new accept loop and no
registry change; starting a remote tunnel whose remote-port is already in
the remote registry performs no forward request and no registry change and
returns the id `remote:<remote-port>:<local-port>` computed from the call's
arguments — which equals the existing tunnel's id exactly when the call
repeats the registered local-port. -/
theorem start_idempotent_no_side_effects
    (st : TunnelState) (bo : BindOutcome) (pinfo : Option String)
    (avail : Nat → Bool) (ba : String) (lp rp : Nat) (rh : String)
    (fok : Bool) (ferr lh : String) (rp2 lp2 : Nat) :
    (alistContains st.local_listeners (localTunnelId lp rp) = true →
      start_local_forwarding st bo pinfo avail ba lp rh rp =
        (Except.ok (localTunnelId lp rp), st, [])) ∧
    (alistContains st.remote_forwards rp2 = true →
      start_remote_forwarding st fok ferr ba rp2 lh lp2 =
        (Except.ok (remoteTunnelId rp2 lp2), st, [])) := by
  constructor
  · intro h
    unfold start_local_forwarding
    simp [h]
  · intro h
    unfold start_remote_forwarding
    simp [h]

/-- C3 (witness): the amended theorem at a state holding both the local
tunnel `local:8080:5432` and the remote tunnel 9000 → 3000, restarted with
identical parameters. -/
theorem start_idempotent_no_side_effects_witness :
    start_local_forwarding
        ⟨[(9000, ("127.0.0.1", 3000, "0.0.0.0"))], [("local:8080:5432", ())]⟩
        BindOutcome.ok none (fun _ => true) "127.0.0.1" 8080 "db.internal" 5432 =
      (Except.ok (localTunnelId 8080 5432),
       ⟨[(9000, ("127.0.0.1", 3000, "0.0.0.0"))], [("local:8080:5432", ())]⟩, []) ∧
    start_remote_forwarding
        ⟨[(9000, ("127.0.0.1", 3000, "0.0.0.0"))], [("local:8080:5432", ())]⟩
        true "" "0.0.0.0" 9000 "127.0.0.1" 3000 =
      (Except.ok (remoteTunnelId 9000 3000),
       ⟨[(9000, ("127.0.0.1", 3000, "0.0.0.0"))], [("local:8080:5432", ())]⟩, []) := by
  have h := start_idempotent_no_side_effects
      ⟨[(9000, ("127.0.0.1", 3000, "0.0.0.0"))], [("local:8080:5432", ())]⟩
      BindOutcome.ok none (fun _ => true) "127.0.0.1" 8080 5432 "db.internal"
      true "" "127.0.0.1" 9000 3000
  exact ⟨h.1 (by decide), h.2 (by decide)⟩

/-! ### C4 — insert-before-request and remove-before-cancel ordering -/

/-- C4: in `start_remote_forwarding` (remote-port not yet registered) the
emitted effect order is registry insertion first, then the `tcpip_forward`
request; in `stop_tunnel` on a parseable remote id whose port is registered
and with a session supplied, the order is registry removal first, then the
`cancel_tcpip_forward` request. -/
theorem remote_insert_before_request_remove_before_cancel
    (st st2 : TunnelState) (fok : Bool) (ferr ba lh th sb : String)
    (rp lp rp2 tp : Nat) (ov : Option String) (tid s0 s1 s2 : String) :
    (alistContains st.remote_forwards rp = false →
      (start_remote_forwarding st fok ferr ba rp lh lp).2.2 =
        [TEvent.insertRemote rp, TEvent.tcpipForward ba rp]) ∧
    (strStarts tid "remote:" = true →
      splitChar ':' tid = [s0, s1, s2] →
      parseU16 s1 = some rp2 →
      alistGet st2.remote_forwards rp2 = some (th, tp, sb) →
      (stop_tunnel st2 true tid ov).2.2 =
        [TEvent.removeRemote rp2, TEvent.cancelForward (ov.getD sb) rp2]) := by
  constructor
  · intro h
    unfold start_remote_forwarding
    cases fok <;> simp [h]
  · intro h2 h3 h4 h5
    have h1 := strStarts_remote_not_local tid h2
    unfold stop_tunnel
    simp [h1, h2, h3, h4, h5]

/-- C4 (witness): the ordering theorem at remote-port 9000, target
`127.0.0.1:3000`, id `"remote:9000:3000"`, no bind override. -/
theorem remote_insert_before_request_remove_before_cancel_witness :
    (start_remote_forwarding ⟨[], []⟩ true "" "0.0.0.0" 9000
        "127.0.0.1" 3000).2.2 =
      [TEvent.insertRemote 9000, TEvent.tcpipForward "0.0.0.0" 9000] ∧
    (stop_tunnel ⟨[(9000, ("127.0.0.1", 3000, "0.0.0.0"))], []⟩ true
        "remote:9000:3000" none).2.2 =
      [TEvent.removeRemote 9000, TEvent.cancelForward "0.0.0.0" 9000] := by
  have h := remote_insert_before_request_remove_before_cancel
      ⟨[], []⟩ ⟨[(9000, ("127.0.0.1", 3000, "0.0.0.0"))], []⟩ true "" "0.0.0.0"
      "127.0.0.1" "127.0.0.1" "0.0.0.0" 9000 3000 9000 3000 none
      "remote:9000:3000" "remote" "9000" "3000"
  exact ⟨h.1 rfl, h.2 rfl rfl rfl rfl⟩

/-! ### C5 — stop never fails; absent ids leave state unchanged -/

/-- C5: for every state, session option, tunnel-id string and bind-address
override, `stop_tunnel` returns success; and when the id has no matching
entry in the registry it addresses, both registries are left unchanged
(the defensive cancel attempt for an unknown remote port is an outbound
request only, not a registry mutation). -/
theorem stop_tunnel_total_and_absent_noop (st : TunnelState) (hs : Bool)
    (tid : String) (ov : Option String) :
    (stop_tunnel st hs tid ov).1 = Except.ok () ∧
    (stopTouches st tid = false → (stop_tunnel st hs tid ov).2.1 = st) := by
  constructor
  · unfold stop_tunnel
    (repeat' split) <;> rfl
  · intro h
    unfold stopTouches remoteIdPort alistContains at h
    unfold stop_tunnel
    (repeat' split) <;> simp_all

/-- C5 (witness): stopping the unknown id `"local:1:2"` on a nonempty state
succeeds and changes nothing. -/
theorem stop_tunnel_total_and_absent_noop_witness :
    (stop_tunnel ⟨[(9000, ("127.0.0.1", 3000, "0.0.0.0"))], []⟩ true
        "local:1:2" none).1 = Except.ok () ∧
    (stop_tunnel ⟨[(9000, ("127.0.0.1", 3000, "0.0.0.0"))], []⟩ true
        "local:1:2" none).2.1 =
      (⟨[(9000, ("127.0.0.1", 3000, "0.0.0.0"))], []⟩ : TunnelState) := by
  have h := stop_tunnel_total_and_absent_noop
      ⟨[(9000, ("127.0.0.1", 3000, "0.0.0.0"))], []⟩ true "local:1:2" none
  exact ⟨h.1, h.2 rfl⟩

/-! ### C10 — malformed ids: success, no mutation, no cancel -/

/-- C10: for a tunnel-id that starts with neither `"local:"` nor
`"remote:"`, and for a `"remote:"`-prefixed id that does not split into
exactly three colon-separated fields or whose second field does not parse
as a `u16`, `stop_tunnel` returns success, leaves the state unchanged and
emits no effect at all — in particular no cancel request — even when a
session handle is supplied. -/
theorem stop_tunnel_unparsable_id_noop (st : TunnelState) (hs : Bool)
    (ov : Option String) (tid : String)
    (h : (strStarts tid "local:" = false ∧ strStarts tid "remote:" = false) ∨
         (strStarts tid "remote:" = true ∧ remoteIdPort tid = none)) :
    stop_tunnel st hs tid ov = (Except.ok (), st, []) := by
  unfold stop_tunnel
  rcases h with ⟨h1, h2⟩ | ⟨h2, h3⟩
  · simp [h1, h2]
  · have h1 := strStarts_remote_not_local tid h2
    unfold remoteIdPort at h3
    simp only [h1, h2, Bool.false_eq_true, if_false, if_true]
    split <;> simp_all

/-- C10 (witness): stopping `"remote:xx:1"` (second field not a number)
with a session and an override succeeds, mutates nothing, emits nothing. -/
theorem stop_tunnel_unparsable_id_noop_witness :
    stop_tunnel ⟨[(9000, ("127.0.0.1", 3000, "0.0.0.0"))], []⟩ true
        "remote:xx:1" (some "0.0.0.0") =
      (Except.ok (), ⟨[(9000, ("127.0.0.1", 3000, "0.0.0.0"))], []⟩, []) :=
  stop_tunnel_unparsable_id_noop _ true (some "0.0.0.0") "remote:xx:1"
    (Or.inr ⟨rfl, rfl⟩)

/-! ### C6 — port-in-use diagnostic -/

lemma containsStr_self (s : String) : containsStr s s :=
  ⟨"", "", by simp⟩

lemma containsStr_append_right (s t sub : String) (h : containsStr s sub) :
    containsStr (s ++ t) sub := by
  obtain ⟨pre, post, hpre⟩ := h
  exact ⟨pre, post ++ t, by rw [hpre]; simp [String.append_assoc]⟩

lemma containsStr_append_left (s t sub : String) (h : containsStr t sub) :
    containsStr (s ++ t) sub := by
  obtain ⟨pre, post, hpre⟩ := h
  exact ⟨s ++ pre, post, by rw [hpre]; simp [String.append_assoc]⟩

lemma findNextGo_eq_firstAvailFrom (avail : Nat → Bool) (s : Nat) :
    ∀ (n o : Nat), 1 ≤ o → s + o + n ≤ 65536 →
      findNextGo avail s o n = firstAvailFrom avail (s + o) n := by
  intro n
  induction n with
  | zero => intro o _ _; rfl
  | succ k ih =>
      intro o ho hle
      have hmin : min (s + o) 65535 = s + o := by omega
      have hno : ¬(s + o = 0 ∨ s + o = s) := by omega
      unfold findNextGo firstAvailFrom
      simp only [hmin, hno, if_false]
      split
      · rfl
      · exact ih (o + 1) (by omega) (by omega)

/-- C6: when the local listener bind hits address-in-use (and the id was
not already registered), `start_local_forwarding` fails with a `PortInUse`
error whose message names the local port, includes the discovered process
description when there is one, and includes the suggested port when the
probe finds one; and the probe `find_next_available_port(local_port, 10)`
returns the first available port among `local_port+1 .. local_port+10`,
probed in order (stated for ports that stay within the 16-bit range). -/
theorem start_local_port_in_use_diagnostic
    (st : TunnelState) (pinfo : Option String) (avail : Nat → Bool)
    (ba rh : String) (lp rp : Nat)
    (hid : alistContains st.local_listeners (localTunnelId lp rp) = false) :
    (∃ msg,
      start_local_forwarding st BindOutcome.addrInUse pinfo avail ba lp rh rp =
        (Except.error (TunnelError.portInUse msg), st,
         [TEvent.bindAttempt ba lp]) ∧
      containsStr msg (toString lp) ∧
      (∀ s, pinfo = some s → containsStr msg s) ∧
      (∀ p, find_next_available_port avail lp 10 = some p →
        containsStr msg (toString p))) ∧
    (lp + 10 ≤ 65535 →
      find_next_available_port avail lp 10 = firstAvailFrom avail (lp + 1) 10) := by
  constructor
  · refine ⟨port_in_use_message lp pinfo (find_next_available_port avail lp 10),
      ?_, ?_, ?_, ?_⟩
    · unfold start_local_forwarding
      simp [hid]
    · unfold port_in_use_message
      cases pinfo <;> cases find_next_available_port avail lp 10 <;>
        · repeat first
            | exact containsStr_append_left _ _ _ (containsStr_self _)
            | apply containsStr_append_right
    · intro s hs
      subst hs
      unfold port_in_use_message
      cases hf : find_next_available_port avail lp 10 with
      | none =>
          exact containsStr_append_right _ _ _
            (containsStr_append_left _ _ _
              (containsStr_append_left _ _ _ (containsStr_self _)))
      | some p =>
          exact containsStr_append_right _ _ _
            (containsStr_append_right _ _ _
              (containsStr_append_right _ _ _
                (containsStr_append_left _ _ _
                  (containsStr_append_left _ _ _ (containsStr_self _)))))
    · intro p hp
      rw [hp]
      unfold port_in_use_message
      cases pinfo <;>
        · exact containsStr_append_right _ _ _
            (containsStr_append_left _ _ _ (containsStr_self _))
  · intro h
    unfold find_next_available_port
    exact findNextGo_eq_firstAvailFrom avail lp 10 1 (le_refl 1) (by omega)

/-- C6 (witness): the diagnostic theorem at port 8080, an empty registry,
process info `by 'node' (PID: 1234)` and only port 8082 free. -/
theorem start_local_port_in_use_diagnostic_witness :
    (∃ msg,
      start_local_forwarding ⟨[], []⟩ BindOutcome.addrInUse
          (some "by 'node' (PID: 1234)") (fun p => p == 8082) "127.0.0.1" 8080
          "db.internal" 5432 =
        (Except.error (TunnelError.portInUse msg), ⟨[], []⟩,
         [TEvent.bindAttempt "127.0.0.1" 8080]) ∧
      containsStr msg (toString 8080) ∧
      (∀ s, (some "by 'node' (PID: 1234)" : Option String) = some s →
        containsStr msg s) ∧
      (∀ p, find_next_available_port (fun p => p == 8082) 8080 10 = some p →
        containsStr msg (toString p))) ∧
    find_next_available_port (fun p => p == 8082) 8080 10 =
      firstAvailFrom (fun p => p == 8082) 8081 10 := by
  have h := start_local_port_in_use_diagnostic ⟨[], []⟩
      (some "by 'node' (PID: 1234)") (fun p => p == 8082) "127.0.0.1"
      "db.internal" 8080 5432 (by decide)
  exact ⟨h.1, h.2 (by decide)⟩

/-! ### C7 — step ordering of jump-host connect -/

lemma connect_ok_trace_last (oc : ConnectOracle) (c : ConnectionConfig)
    (s : SessionHandle) (h : (connect oc c).1 = Except.ok s) :
    (connect oc c).2.getLast? = some (SEvent.authenticate c.username) := by
  cases c with
  | mk host port username auth jump =>
    cases jump with
    | none =>
        simp only [connect, ConnectionConfig.username] at h ⊢
        cases htcp : oc.tcp_ok host port <;> simp [htcp] at h ⊢
        cases hhs : oc.handshake_ok host <;> simp [hhs] at h ⊢
        cases hau : oc.auth_ok username <;> simp [hau] at h ⊢
    | some jcfg =>
        rcases hq : connect oc jcfg with ⟨r, ptr⟩
        simp only [connect, ConnectionConfig.username, hq] at h ⊢
        cases r with
        | error e => simp at h
        | ok parent =>
            cases hch : oc.channel_ok host port <;> simp [hch] at h ⊢
            cases hhs : oc.handshake_ok host <;> simp [hhs] at h ⊢
            cases hau : oc.auth_ok username <;> simp [hau] at h ⊢

/-- C7: for a config with a jump host, once the recursive parent connect
has succeeded and the channel open and handshake succeed, the full event
trace is exactly the parent's trace (which itself ends with the parent's
authentication) followed by the direct-tcpip channel open to
`(host, port)` with originator `"0.0.0.0":0`, then the child handshake over
the channel stream, then the child authentication attempt. -/
theorem connect_jump_step_order
    (oc : ConnectOracle) (host : String) (port : Nat) (username : String)
    (auth : AuthMethod) (jcfg : ConnectionConfig) (parent : SessionHandle)
    (hpar : (connect oc jcfg).1 = Except.ok parent)
    (hch : oc.channel_ok host port = true)
    (hhs : oc.handshake_ok host = true) :
    (connect oc (ConnectionConfig.mk host port username auth (some jcfg))).2 =
      (connect oc jcfg).2 ++
        [SEvent.channelOpenDirectTcpip host port "0.0.0.0" 0,
         SEvent.handshake host,
         SEvent.authenticate username] ∧
    (connect oc jcfg).2.getLast? =
      some (SEvent.authenticate jcfg.username) := by
  refine ⟨?_, connect_ok_trace_last oc jcfg parent hpar⟩
  rcases hq : connect oc jcfg with ⟨r, ptr⟩
  rw [hq] at hpar
  simp at hpar
  subst hpar
  cases hauth : oc.auth_ok username <;>
    simp [connect, hq, hch, hhs, hauth, List.append_assoc]

/-- C7 (witness): the ordering theorem on the two-hop config
bastion → inner with an all-success oracle. -/
theorem connect_jump_step_order_witness :
    (connect ⟨fun _ _ => true, fun _ _ => true, fun _ => true, fun _ => true⟩
        (ConnectionConfig.mk "inner" 22 "u" (AuthMethod.password "p")
          (some (ConnectionConfig.mk "bastion" 22 "b" (AuthMethod.password "q")
            none)))).2 =
      (connect ⟨fun _ _ => true, fun _ _ => true, fun _ => true, fun _ => true⟩
          (ConnectionConfig.mk "bastion" 22 "b" (AuthMethod.password "q") none)).2 ++
        [SEvent.channelOpenDirectTcpip "inner" 22 "0.0.0.0" 0,
         SEvent.handshake "inner",
         SEvent.authenticate "u"] ∧
    (connect ⟨fun _ _ => true, fun _ _ => true, fun _ => true, fun _ => true⟩
        (ConnectionConfig.mk "bastion" 22 "b" (AuthMethod.password "q") none)).2.getLast? =
      some (SEvent.authenticate
        (ConnectionConfig.mk "bastion" 22 "b" (AuthMethod.password "q") none).username) :=
  connect_jump_step_order
    ⟨fun _ _ => true, fun _ _ => true, fun _ => true, fun _ => true⟩
    "inner" 22 "u" (AuthMethod.password "p")
    (ConnectionConfig.mk "bastion" 22 "b" (AuthMethod.password "q") none)
    (SessionHandle.mk "bastion" 22 "b" none) rfl rfl rfl

/-! ### C8 — the parent-session anchor -/

/-- C8: a child session built over a jump host is constructed with its
handler's `kept_alive_session` anchor holding the parent session handle; a
directly connected session's handler holds no anchor; and the handler's
only callback in scope leaves the handler state (hence the anchor)
unchanged.  The drop-prevention itself is the shared-ownership (`Arc`)
semantics of the anchor, embedded as the anchor holding the parent handle
as a value. -/
theorem session_parent_anchor
    (oc : ConnectOracle) (host : String) (port : Nat) (username : String)
    (auth : AuthMethod) (jcfg : ConnectionConfig) (parent : SessionHandle)
    (hpar : (connect oc jcfg).1 = Except.ok parent)
    (hch : oc.channel_ok host port = true)
    (hhs : oc.handshake_ok host = true)
    (hauth : oc.auth_ok username = true) :
    (connect oc (ConnectionConfig.mk host port username auth (some jcfg))).1 =
      Except.ok (SessionHandle.mk host port username (some parent)) ∧
    (∀ (h2 : String) (p2 : Nat) (u2 : String) (a2 : AuthMethod)
        (s : SessionHandle),
      (connect oc (ConnectionConfig.mk h2 p2 u2 a2 none)).1 = Except.ok s →
      s.kept_alive_session = none) ∧
    (∀ (c : Client) (cp : Nat) (d : Bool),
      (server_channel_open_forwarded_tcpip c cp d).1 = c) := by
  refine ⟨?_, ?_, ?_⟩
  · rcases hq : connect oc jcfg with ⟨r, ptr⟩
    rw [hq] at hpar
    simp at hpar
    subst hpar
    simp [connect, hq, hch, hhs, hauth]
  · intro h2 p2 u2 a2 s hs
    simp only [connect] at hs
    split at hs
    · split at hs
      · split at hs
        · simp only [Except.ok.injEq] at hs
          rw [← hs]
          rfl
        · simp at hs
      · simp at hs
    · simp at hs
  · intro c cp d
    unfold server_channel_open_forwarded_tcpip
    split <;> rfl

/-- C8 (witness): the anchor theorem on the bastion → inner config with an
all-success oracle; the child's anchor holds the bastion handle, a direct
connect yields no anchor, and the handler preserves its state. -/
theorem session_parent_anchor_witness :
    (connect ⟨fun _ _ => true, fun _ _ => true, fun _ => true, fun _ => true⟩
        (ConnectionConfig.mk "inner" 22 "u" (AuthMethod.password "p")
          (some (ConnectionConfig.mk "bastion" 22 "b" (AuthMethod.password "q")
            none)))).1 =
      Except.ok (SessionHandle.mk "inner" 22 "u"
        (some (SessionHandle.mk "bastion" 22 "b" none))) :=
  (session_parent_anchor
    ⟨fun _ _ => true, fun _ _ => true, fun _ => true, fun _ => true⟩
    "inner" 22 "u" (AuthMethod.password "p")
    (ConnectionConfig.mk "bastion" 22 "b" (AuthMethod.password "q") none)
    (SessionHandle.mk "bastion" 22 "b" none) rfl rfl rfl rfl).1

/-! ### C9 — the session lock is not held across the stream copy -/

/-- C9: in the per-connection task of a local tunnel, every occurrence of
the bidirectional copy in the event trace is strictly preceded by the lock
release (so the lock is never held while copying), the lock is held
exactly for the channel-open call(s), and on a successful channel open the
whole trace is acquire, open, release, copy in that order. -/
theorem per_connection_lock_not_held_across_copy
    (channel_ok : Bool) (rh : String) (rp : Nat) :
    (∀ tr1 tr2,
      per_connection_task channel_ok rh rp =
        tr1 ++ LEvent.copyBidirectional :: tr2 →
      LEvent.lockRelease ∈ tr1) ∧
    (channel_ok = true →
      per_connection_task channel_ok rh rp =
        [LEvent.lockAcquire,
         LEvent.channelOpenDirect rh rp "127.0.0.1" 0,
         LEvent.lockRelease,
         LEvent.copyBidirectional]) := by
  constructor
  · intro tr1 tr2 h
    cases channel_ok with
    | false =>
        exfalso
        have hmem : LEvent.copyBidirectional ∈
            per_connection_task false rh rp := by
          rw [h]
          simp
        simp [per_connection_task] at hmem
    | true =>
        simp only [per_connection_task, if_true] at h
        rcases tr1 with _ | ⟨a, _ | ⟨b, _ | ⟨c, _ | ⟨d, tl⟩⟩⟩⟩ <;> simp_all
  · intro hok
    subst hok
    rfl

/-- C9 (witness): the lock-discipline theorem at a successful channel open
towards `db.internal:5432`, with the copy decomposition made explicit. -/
theorem per_connection_lock_not_held_across_copy_witness :
    LEvent.lockRelease ∈
      [LEvent.lockAcquire,
       LEvent.channelOpenDirect "db.internal" 5432 "127.0.0.1" 0,
       LEvent.lockRelease] :=
  (per_connection_lock_not_held_across_copy true "db.internal" 5432).1
    [LEvent.lockAcquire,
     LEvent.channelOpenDirect "db.internal" 5432 "127.0.0.1" 0,
     LEvent.lockRelease] [] rfl

end Zync
